import Mathlib

set_option autoImplicit false

namespace PsqlpyPiccolo

/-! Shallow embedding of the psqlpy-piccolo engine adapter
(`src/psqlpy_piccolo/engine.py`) and proofs about it.
Python strings are modelled as lists of characters; stateful methods become
pure functions returning updated state together with a trace of the driver
calls they issue; Python exceptions become `Except` errors. -/

/-- Python strings, modelled as lists of characters. -/
abbrev PyStr := List Char

/-- Python `s.split(sep)` for a one-character separator: it splits at every
occurrence of the separator, keeps empty segments, and returns `[s]` when the
separator does not occur (so the empty string splits to `[[]]`). -/
def pySplit (sep : Char) : PyStr → List PyStr
  | [] => [[]]
  | c :: rest =>
    if c = sep then [] :: pySplit sep rest
    else (c :: (pySplit sep rest).headI) :: (pySplit sep rest).tail

/-- Whitespace characters stripped by Python `float(str)` before parsing
(ASCII subset). -/
def isPyWhitespace (c : Char) : Bool :=
  c = ' ' || c = '\t' || c = '\n' || c = '\r' || c = '\x0b' || c = '\x0c'

/-- Strip leading and trailing whitespace, as Python `float(str)` does. -/
def pyStrip (s : PyStr) : PyStr :=
  ((s.dropWhile isPyWhitespace).reverse.dropWhile isPyWhitespace).reverse

/-- Consume the `(digit | "_" digit)*` tail of a Python digit-part (an
underscore is only allowed between two digits); the unconsumed remainder is
returned. -/
def digitsTail : PyStr → PyStr
  | [] => []
  | '_' :: rest =>
    match rest with
    | d :: rest' => if d.isDigit then digitsTail rest' else '_' :: rest
    | [] => ['_']
  | c :: rest => if c.isDigit then digitsTail rest else c :: rest

/-- Consume a full Python digit-part (`digit (("_")? digit)*`); `none` when the
input does not start with a digit. -/
def chompDigitpart : PyStr → Option PyStr
  | [] => none
  | c :: rest => if c.isDigit then some (digitsTail rest) else none

/-- Accept an optionally signed digit-part consuming the whole input (the body
of a float exponent). -/
def acceptSignedDigitpart (s : PyStr) : Bool :=
  let s' := match s with
    | c :: rest => if c = '+' || c = '-' then rest else s
    | [] => s
  match chompDigitpart s' with
  | some [] => true
  | _ => false

/-- After the mantissa, a float literal is either finished or has an
exponent `("e" | "E") sign? digitpart`. -/
def acceptExpOrEnd : PyStr → Bool
  | [] => true
  | e :: rest => (e = 'e' || e = 'E') && acceptSignedDigitpart rest

/-- Accept the unsigned mantissa of a Python float literal:
`digitpart`, `digitpart "." digitpart?`, or `"." digitpart`, each optionally
followed by an exponent. -/
def acceptMantissa (s : PyStr) : Bool :=
  match chompDigitpart s with
  | some rest1 =>
    match rest1 with
    | '.' :: r2 =>
      match chompDigitpart r2 with
      | some rest2 => acceptExpOrEnd rest2
      | none => acceptExpOrEnd r2
    | _ => acceptExpOrEnd rest1
  | none =>
    match s with
    | '.' :: r2 =>
      match chompDigitpart r2 with
      | some rest2 => acceptExpOrEnd rest2
      | none => false
    | _ => false

/-- Does Python `float(s)` succeed on string `s`?  Whitespace is stripped, an
optional sign is allowed, then either one of the special words
inf / infinity / nan (case-insensitive) or a numeric literal. -/
def pyFloatAccepts (s : PyStr) : Bool :=
  let t := pyStrip s
  let t' := match t with
    | c :: rest => if c = '+' || c = '-' then rest else t
    | [] => t
  let low := t'.map Char.toLower
  low = ['i', 'n', 'f'] ||
    low = ['i', 'n', 'f', 'i', 'n', 'i', 't', 'y'] ||
    low = ['n', 'a', 'n'] ||
    acceptMantissa t'

/-- Python exceptions raised by the code paths modelled here. -/
inductive PyErr
  | valueError
deriving DecidableEq, Repr

/-- Embedding of `PSQLPyEngine._parse_raw_version_string`.  The Python code
takes the first space-separated segment, splits it on dots, unpacks the first
two components (a `ValueError` when there are fewer than two), and returns
`float(f"{major}.{minor}")` (a `ValueError` when that string is not a float).
We return the string `major ++ "." ++ minor` itself as the canonical
representation of that float: equal strings denote equal floats. -/
def parse_raw_version_string (s : PyStr) : Except PyErr PyStr :=
  match pySplit '.' (pySplit ' ' s).headI with
  | major :: minor :: _ =>
    if pyFloatAccepts (major ++ '.' :: minor) then .ok (major ++ '.' :: minor)
    else .error .valueError
  | _ => .error .valueError

/-- Where a query's connection comes from in the engine's routing logic. -/
inductive ConnSource
  | currentTxn
  | pooled
  | fresh
deriving DecidableEq, Repr

/-- Embedding of `PSQLPyEngine.get_new_connection`.  Its docstring promises a
connection that is not retrieved from the pool, but the body returns
`self.pool.connection()` whenever `self.pool` is set, and only falls back to a
one-off `ConnectionPool(...).connection()` when no pool exists.  The pool is
modelled by the id of the pool object, `none` when unset. -/
def get_new_connection (pool : Option Nat) : ConnSource :=
  match pool with
  | some _ => .pooled
  | none => .fresh

/-- Embedding of the connection routing of `PSQLPyEngine.run_querystring`:
first the task-local current transaction, else `_run_in_pool` when `in_pool`
is set and a pool is running, else `_run_in_new_connection` (which obtains its
connection through `get_new_connection`).  The current transaction is
modelled by its id. -/
def run_querystring_dispatch (currentTransaction : Option Nat)
    (pool : Option Nat) (in_pool : Bool) : ConnSource :=
  match currentTransaction with
  | some _ => .currentTxn
  | none => if in_pool && pool.isSome then .pooled else get_new_connection pool

/-- Embedding of the connection routing of `PSQLPyEngine.run_ddl`, which
repeats the routing of `run_querystring` verbatim. -/
def run_ddl_dispatch (currentTransaction : Option Nat)
    (pool : Option Nat) (in_pool : Bool) : ConnSource :=
  match currentTransaction with
  | some _ => .currentTxn
  | none => if in_pool && pool.isSome then .pooled else get_new_connection pool

/-- Embedding of `piccolo.engine.exceptions.TransactionError`. -/
inductive TxErr
  | transactionError
deriving DecidableEq, Repr

/-- State of one `PostgresTransaction` object.  `parent` holds the id of the
outer transaction when the object was created while one was already current
(the `_parent` attribute); `savedSlot` models the context-variable token
recorded by `__aenter__` (the slot's prior value, restored on exit). -/
structure TxnObj where
  id : Nat
  parent : Option Nat
  committed : Bool
  rolledBack : Bool
  savepointId : Nat
  savedSlot : Option Nat
deriving DecidableEq, Repr

/-- Embedding of `PostgresTransaction.__init__`: reads the engine's task-local
`current_transaction` slot; when a transaction is already current, either
records it as parent (nesting allowed) or raises `TransactionError`. -/
def transactionInit (slot : Option Nat) (newId : Nat) (allowNested : Bool) :
    Except TxErr TxnObj :=
  match slot with
  | some cur =>
    if allowNested then
      .ok { id := newId, parent := some cur, committed := false,
            rolledBack := false, savepointId := 0, savedSlot := none }
    else .error .transactionError
  | none =>
    .ok { id := newId, parent := none, committed := false,
          rolledBack := false, savepointId := 0, savedSlot := none }

/-- Embedding of `PSQLPyEngine.transaction`, which just constructs a
`PostgresTransaction` against the engine's current slot. -/
def engineTransaction (slot : Option Nat) (newId : Nat) (allowNested : Bool) :
    Except TxErr TxnObj :=
  transactionInit slot newId allowNested

/-- Driver-level transaction calls issued by the scope manager. -/
inductive TxAction
  | begin
  | commit
  | rollback
deriving DecidableEq, Repr

/-- Embedding of `PostgresTransaction.__aenter__`.  Result components: the id
of the transaction object the `async with` binds, the updated object, the new
value of the task-local slot, and the driver calls issued.  A nested scope
returns the parent object and touches nothing; an outer scope begins a driver
transaction and publishes itself in the slot, remembering the prior value. -/
def aenter (t : TxnObj) (slot : Option Nat) :
    Nat × TxnObj × Option Nat × List TxAction :=
  match t.parent with
  | some p => (p, t, slot, [])
  | none => (t.id, { t with savedSlot := slot }, some t.id, [TxAction.begin])

/-- Embedding of `PostgresTransaction.__aexit__`.  Result components: the
returned boolean (`exception is None`, so an in-flight exception is never
suppressed), the updated object, the new value of the task-local slot, and the
driver calls issued.  `hasException` tells whether the block raised. -/
def aexit (t : TxnObj) (slot : Option Nat) (hasException : Bool) :
    Bool × TxnObj × Option Nat × List TxAction :=
  match t.parent with
  | some _ => (!hasException, t, slot, [])
  | none =>
    let (t2, acts) :=
      if hasException then
        if t.rolledBack then (t, ([] : List TxAction))
        else ({ t with rolledBack := true }, [TxAction.rollback])
      else
        if !t.committed && !t.rolledBack then
          ({ t with committed := true }, [TxAction.commit])
        else (t, ([] : List TxAction))
    (!hasException, t2, t.savedSlot, acts)

/-- Embedding of `PostgresTransaction.commit` (driver commit, then set the
`_committed` flag). -/
def txnCommit (t : TxnObj) : TxnObj × List TxAction :=
  ({ t with committed := true }, [TxAction.commit])

/-- Embedding of `PostgresTransaction.rollback` (driver rollback, then set the
`_rolled_back` flag). -/
def txnRollback (t : TxnObj) : TxnObj × List TxAction :=
  ({ t with rolledBack := true }, [TxAction.rollback])

/-- Embedding of `PostgresTransaction.get_savepoint_id`: increments the
per-transaction counter and returns its new value. -/
def get_savepoint_id (t : TxnObj) : Nat × TxnObj :=
  (t.savepointId + 1, { t with savepointId := t.savepointId + 1 })

/-- Modelled from the spec: `validate_savepoint_name` is imported from the
mapping library (`piccolo.engine.base`) and its code is not part of this
repository.  The spec describes it as an identifier-safety predicate that
fails with a validation error when the name "contains characters unsafe for
direct SQL interpolation"; characters safe for a SQL identifier are letters,
digits and the underscore. -/
def savepointCharSafe (c : Char) : Bool :=
  c.isAlphanum || c = '_'

/-- Modelled from the spec: a savepoint name passes `validate_savepoint_name`
exactly when every character is identifier-safe. -/
def savepointNameSafe (name : PyStr) : Bool :=
  name.all savepointCharSafe

/-- Character for decimal digit `d` (for `d < 10`), as Python `str(int)`
produces. -/
def decDigit (d : Nat) : Char :=
  Char.ofNat (48 + d)

/-- Decimal digits of `n` prepended to `acc`; `fuel` bounds the recursion and
`natDecimal` always supplies enough of it. -/
def natDecimalAux : Nat → Nat → PyStr → PyStr
  | 0, _, acc => acc
  | fuel + 1, n, acc =>
    if n < 10 then decDigit n :: acc
    else natDecimalAux fuel (n / 10) (decDigit (n % 10) :: acc)

/-- Decimal representation of a natural number, as Python `str(int)`. -/
def natDecimal (n : Nat) : PyStr :=
  natDecimalAux (n + 1) n []

/-- Python `f"savepoint_{i}"`. -/
def savepointDefaultName (i : Nat) : PyStr :=
  ['s', 'a', 'v', 'e', 'p', 'o', 'i', 'n', 't', '_'] ++ natDecimal i

/-- SQL statements the savepoint manager sends to the driver; each carries the
name interpolated into the statement text. -/
inductive SqlStmt
  | createSavepoint (name : PyStr)
  | rollbackToSavepoint (name : PyStr)
  | releaseSavepoint (name : PyStr)
deriving DecidableEq, Repr

/-- Embedding of `piccolo`'s validation `ValueError`. -/
inductive ValErr
  | valueError
deriving DecidableEq, Repr

/-- Embedding of `PostgresTransaction.savepoint`: picks
`name or f"savepoint_{self.get_savepoint_id()}"` (Python `or`: a missing or
empty name selects the default and increments the counter), validates it, and
only then issues the driver's create-savepoint call.  Result: the outcome
(savepoint name and updated transaction, or the validation error) paired with
the SQL issued. -/
def savepoint (t : TxnObj) (name : Option PyStr) :
    Except ValErr (PyStr × TxnObj) × List SqlStmt :=
  let useDefault := match name with
    | none => true
    | some nm => nm = []
  let (spName, t') :=
    if useDefault then
      let (i, t') := get_savepoint_id t
      (savepointDefaultName i, t')
    else (name.getD [], t)
  if savepointNameSafe spName then
    (.ok (spName, t'), [SqlStmt.createSavepoint spName])
  else (.error .valueError, [])

/-- Embedding of `Savepoint.rollback_to`: validates the stored name, then
executes `f"ROLLBACK TO SAVEPOINT {self.name}"` on the owning transaction's
connection.  On a validation failure no SQL is issued. -/
def savepointRollbackTo (name : PyStr) : Except ValErr Unit × List SqlStmt :=
  if savepointNameSafe name then (.ok (), [SqlStmt.rollbackToSavepoint name])
  else (.error .valueError, [])

/-- Embedding of `Savepoint.release`: validates the stored name, then executes
`f"RELEASE SAVEPOINT {self.name}"`.  On a validation failure no SQL is
issued. -/
def savepointRelease (name : PyStr) : Except ValErr Unit × List SqlStmt :=
  if savepointNameSafe name then (.ok (), [SqlStmt.releaseSavepoint name])
  else (.error .valueError, [])

/-- Items a caller can pass to `Atomic.add`: the recognized query classes
(`Query`, `DDL`, `Create`, `GetOrCreate`), each of which may fail when run,
or an object of any other type. -/
inductive QueryItem
  | query (fails : Bool)
  | ddl (fails : Bool)
  | create (fails : Bool)
  | getOrCreate (fails : Bool)
  | unrecognized
deriving DecidableEq, Repr

/-- The `isinstance(query, (Query, DDL, Create, GetOrCreate))` check in
`Atomic.run`. -/
def queryItemRecognized : QueryItem → Bool
  | .unrecognized => false
  | _ => true

/-- Whether running the item raises a driver error. -/
def queryItemFails : QueryItem → Bool
  | .query f => f
  | .ddl f => f
  | .create f => f
  | .getOrCreate f => f
  | .unrecognized => false

/-- Embedding of `Atomic.add`: appends the given queries to the pending
list. -/
def atomicAdd (queries newQueries : List QueryItem) : List QueryItem :=
  queries ++ newQueries

/-- Observable events of one `Atomic.run` call. -/
inductive RunEvent
  | begin
  | exec (q : QueryItem)
  | commit
  | rollback
deriving DecidableEq, Repr

/-- Python exceptions escaping `Atomic.run`. -/
inductive AtomicErr
  | typeError
  | queryError
deriving DecidableEq, Repr

/-- The `for query in self.queries` loop of `Atomic.run`: runs each recognized
item in order, raising `TypeError` at the first unrecognized one; a failing
item's driver error also aborts the loop. -/
def atomicLoop : List QueryItem → List RunEvent × Option AtomicErr
  | [] => ([], none)
  | q :: rest =>
    if queryItemRecognized q then
      if queryItemFails q then ([RunEvent.exec q], some .queryError)
      else
        let (evs, err) := atomicLoop rest
        (RunEvent.exec q :: evs, err)
    else ([], some .typeError)

/-- Embedding of `Atomic.run` (entered with no transaction already current):
the loop is wrapped in one `engine.transaction()` scope, which commits on
clean exit and rolls back when the loop raised; the pending list is reset to
`[]` both after the `async with` block and in the `except` branch before the
exception is re-raised.  Result components: events in order, the escaping
exception if any, and the pending list after the call. -/
def atomicRun (queries : List QueryItem) :
    List RunEvent × Option AtomicErr × List QueryItem :=
  let (evs, err) := atomicLoop queries
  match err with
  | none => (RunEvent.begin :: (evs ++ [RunEvent.commit]), none, [])
  | some e => (RunEvent.begin :: (evs ++ [RunEvent.rollback]), some e, [])

/-- Warnings emitted by the pool management methods. -/
inductive PoolWarning
  | poolAlreadyExists
  | noPoolRunning
deriving DecidableEq, Repr

/-- Embedding of `PSQLPyEngine.start_connection_pool`: when a pool already
exists it only warns; otherwise it installs the freshly constructed pool
(`newPool` stands for the `ConnectionPool` the call would build from the
config).  Pools are modelled by ids.  Result: the pool slot after the call and
the warnings emitted. -/
def start_connection_pool (pool : Option Nat) (newPool : Nat) :
    Option Nat × List PoolWarning :=
  match pool with
  | some p => (some p, [PoolWarning.poolAlreadyExists])
  | none => (some newPool, [])

/-- Embedding of `PSQLPyEngine.close_connection_pool`: closes and unsets the
pool when one exists, otherwise only warns. -/
def close_connection_pool (pool : Option Nat) :
    Option Nat × List PoolWarning :=
  match pool with
  | some _ => (none, [])
  | none => (none, [PoolWarning.noPoolRunning])

/-- Driver calls issued by `AsyncBatch.__aexit__`. -/
inductive BatchAction
  | commit
  | rollback
deriving DecidableEq, Repr

/-- Embedding of `AsyncBatch.__aexit__`: rolls back the batch's transaction
when the block raised, commits otherwise, and returns `exception is not
None`. -/
def asyncBatchAexit (hasException : Bool) : List BatchAction × Bool :=
  if hasException then ([BatchAction.rollback], true)
  else ([BatchAction.commit], false)

/-- Python's `async with` protocol: an exception raised in the block
propagates to the caller exactly when `__aexit__` returns a falsy value. -/
def pyWithPropagates (aexitResult : Bool) (excRaised : Bool) : Bool :=
  excRaised && !aexitResult

/-! Theorems.  Helper lemmas come first, then one theorem per claim. -/

theorem pySplit_ne_nil (sep : Char) (s : PyStr) : pySplit sep s ≠ [] := by
  cases s with
  | nil => simp [pySplit]
  | cons c rest => rw [pySplit]; split <;> simp

theorem pySplit_not_mem {sep : Char} {s : PyStr} (h : sep ∉ s) :
    pySplit sep s = [s] := by
  induction s with
  | nil => rfl
  | cons c rest ih =>
    have hc : ¬ c = sep := by
      rintro rfl
      exact h (List.mem_cons_self _ _)
    have hr : sep ∉ rest := fun hm => h (List.mem_cons_of_mem _ hm)
    simp [pySplit, ih hr, hc]

theorem pySplit_append (sep : Char) (a b : PyStr) :
    pySplit sep (a ++ sep :: b) = pySplit sep a ++ pySplit sep b := by
  induction a with
  | nil => simp [pySplit]
  | cons c a' ih =>
    obtain ⟨g, gs, hgs⟩ := List.exists_cons_of_ne_nil (pySplit_ne_nil sep a')
    show pySplit sep (c :: (a' ++ sep :: b)) = pySplit sep (c :: a') ++ pySplit sep b
    by_cases hc : c = sep
    · simp [pySplit, hc, ih]
    · simp [pySplit, hc, ih, hgs]

theorem parse_ok_elim {s v : PyStr} (h : parse_raw_version_string s = .ok v) :
    ∃ major minor tl, pySplit '.' (pySplit ' ' s).headI = major :: minor :: tl ∧
      pyFloatAccepts (major ++ '.' :: minor) = true ∧ v = major ++ '.' :: minor := by
  unfold parse_raw_version_string at h
  cases hsp : pySplit '.' (pySplit ' ' s).headI with
  | nil => rw [hsp] at h; simp at h
  | cons major tl =>
    cases tl with
    | nil => rw [hsp] at h; simp at h
    | cons minor tl' =>
      rw [hsp] at h
      by_cases hacc : pyFloatAccepts (major ++ '.' :: minor) = true
      · refine ⟨major, minor, tl', rfl, hacc, ?_⟩
        simp [hacc] at h
        exact h.symm
      · simp [hacc] at h

theorem parse_eval (s : PyStr) {major minor : PyStr} {tl : List PyStr}
    (hsp : pySplit '.' (pySplit ' ' s).headI = major :: minor :: tl)
    (hacc : pyFloatAccepts (major ++ '.' :: minor) = true) :
    parse_raw_version_string s = .ok (major ++ '.' :: minor) := by
  unfold parse_raw_version_string
  rw [hsp]
  simp [hacc]

/-- Claim C8: version parsing keeps only the major and minor components:
"9.4", "9.4.1" and "12.4 (Ubuntu 12.4-0ubuntu0.20.04.1)" parse to 9.4, 9.4
and 12.4; in general a successful parse is unchanged by appending a dot-led
patch component or space-led build information. -/
theorem version_parse_major_minor_only :
    (parse_raw_version_string ("9.4".toList) = .ok ("9.4".toList) ∧
     parse_raw_version_string ("9.4.1".toList) = .ok ("9.4".toList) ∧
     parse_raw_version_string ("12.4 (Ubuntu 12.4-0ubuntu0.20.04.1)".toList) =
       .ok ("12.4".toList)) ∧
    (∀ a patch rest v : PyStr, ' ' ∉ a → ' ' ∉ patch →
      parse_raw_version_string a = .ok v →
      parse_raw_version_string (a ++ '.' :: patch) = .ok v ∧
      parse_raw_version_string (a ++ ' ' :: rest) = .ok v) := by
  refine ⟨⟨rfl, rfl, rfl⟩, ?_⟩
  intro a patch rest v ha hp h
  obtain ⟨major, minor, tl, hsp, hacc, hv⟩ := parse_ok_elim h
  rw [pySplit_not_mem ha, List.headI_cons] at hsp
  subst hv
  constructor
  · have hnm : ' ' ∉ a ++ '.' :: patch := by
      intro hm
      rcases List.mem_append.mp hm with h1 | h2
      · exact ha h1
      · rcases List.mem_cons.mp h2 with h3 | h4
        · exact absurd h3 (by decide)
        · exact hp h4
    have hsp1 : pySplit '.' (pySplit ' ' (a ++ '.' :: patch)).headI =
        major :: minor :: (tl ++ pySplit '.' patch) := by
      rw [pySplit_not_mem hnm, List.headI_cons, pySplit_append, hsp]
      simp
    exact parse_eval _ hsp1 hacc
  · have hsp2 : pySplit '.' (pySplit ' ' (a ++ ' ' :: rest)).headI =
        major :: minor :: tl := by
      rw [pySplit_append, pySplit_not_mem ha]
      simpa using hsp
    exact parse_eval _ hsp2 hacc

/-- Witness for claim C8 at "9.4" with patch "1" and build info "(x)". -/
theorem version_parse_major_minor_only_witness :
    parse_raw_version_string ("9.4".toList ++ '.' :: "1".toList) =
      .ok ("9.4".toList) ∧
    parse_raw_version_string ("9.4".toList ++ ' ' :: "(x)".toList) =
      .ok ("9.4".toList) :=
  version_parse_major_minor_only.2 ("9.4".toList) ("1".toList) ("(x)".toList)
    ("9.4".toList) (by decide) (by decide) rfl

/-- Claim C10: parsing is partial: whenever the first space-separated segment
has no dot (e.g. "14" or the empty string) the function raises a ValueError,
and it returns a value only when that segment has at least two dot-separated
components whose recombination "major.minor" is accepted by Python float. -/
theorem version_parse_partial :
    (parse_raw_version_string ("14".toList) = .error .valueError ∧
     parse_raw_version_string [] = .error .valueError) ∧
    (∀ s : PyStr, '.' ∉ (pySplit ' ' s).headI →
      parse_raw_version_string s = .error .valueError) ∧
    (∀ s v : PyStr, parse_raw_version_string s = .ok v →
      ∃ major minor tl,
        pySplit '.' (pySplit ' ' s).headI = major :: minor :: tl ∧
        pyFloatAccepts (major ++ '.' :: minor) = true) := by
  refine ⟨⟨rfl, rfl⟩, ?_, ?_⟩
  · intro s hdot
    unfold parse_raw_version_string
    rw [pySplit_not_mem hdot]
  · intro s v h
    obtain ⟨major, minor, tl, hsp, hacc, _⟩ := parse_ok_elim h
    exact ⟨major, minor, tl, hsp, hacc⟩

/-- Witness for claim C10 at input "14" (one dot-free segment). -/
theorem version_parse_partial_witness :
    parse_raw_version_string ("14".toList) = .error .valueError :=
  version_parse_partial.2.1 ("14".toList) (by decide)

/-- Claim C1: evaluation at the failing input — no current transaction, a
pool running (id 0), in_pool = False.  Both routers hand the query to a
connection borrowed from the running pool (because get_new_connection returns
pool.connection() whenever the pool is set, contradicting its own docstring),
not to a brand-new non-pool connection as the claim states. -/
theorem run_dispatch_bypass_pool_eval :
    run_querystring_dispatch none (some 0) false = ConnSource.pooled ∧
    run_ddl_dispatch none (some 0) false = ConnSource.pooled :=
  ⟨rfl, rfl⟩

/-- Claim C7: starting a pool twice keeps the first pool object, unchanged,
and only warns on the second call; closing with no pool leaves the slot unset
and warns; hence a second consecutive start or close is a warning-only no-op
on the pool state. -/
theorem pool_start_close_idempotent (p1 p2 : Nat) :
    start_connection_pool (start_connection_pool none p1).1 p2 =
      (some p1, [PoolWarning.poolAlreadyExists]) ∧
    close_connection_pool (close_connection_pool (some p1)).1 =
      (none, [PoolWarning.noPoolRunning]) ∧
    start_connection_pool none p1 = (some p1, []) ∧
    close_connection_pool (some p1) = (none, []) :=
  ⟨rfl, rfl, rfl, rfl⟩

/-- Claim C9: when the with-block raised, AsyncBatch.__aexit__ rolls the
batch's transaction back and returns True, so the exception is suppressed and
never propagates; on clean exit it commits and suppresses nothing. -/
theorem async_batch_exit_suppresses (exc : Bool) :
    (asyncBatchAexit true).1 = [BatchAction.rollback] ∧
    (asyncBatchAexit false).1 = [BatchAction.commit] ∧
    pyWithPropagates (asyncBatchAexit exc).2 exc = false := by
  refine ⟨rfl, rfl, ?_⟩
  cases exc <;> rfl

/-- Claim C2: entering a transaction scope while one is already current (and
nesting is permitted) records the outer transaction as parent, and entering
returns the outer object with the task-local slot unchanged and no driver
call; exiting any nested scope changes nothing and only reports whether an
exception occurred.  Hence a nested scope never makes a second transaction
current. -/
theorem nested_transaction_scope (outer newId : Nat) (slot : Option Nat)
    (h : slot = some outer) :
    (∃ t, transactionInit slot newId true = .ok t ∧ t.parent = some outer ∧
      aenter t slot = (outer, t, slot, [])) ∧
    (∀ (t : TxnObj) (slot2 : Option Nat) (exc : Bool),
      t.parent = some outer →
      aexit t slot2 exc = (!exc, t, slot2, [])) := by
  subst h
  constructor
  · exact ⟨_, rfl, rfl, rfl⟩
  · intro t slot2 exc hp
    simp [aexit, hp]

/-- Witness for claim C2: a nested transaction (id 5, parent 3) exiting with
an exception changes neither the object nor the slot, issues no driver call,
and reports the failure. -/
theorem nested_transaction_scope_witness :
    aexit ⟨5, some 3, false, false, 0, none⟩ (some 3) true =
      (false, ⟨5, some 3, false, false, 0, none⟩, some 3, []) :=
  (nested_transaction_scope 3 5 (some 3) rfl).2
    ⟨5, some 3, false, false, 0, none⟩ (some 3) true rfl

/-- Claim C3: an outer (non-nested) scope commits on clean exit unless the
caller already committed or rolled back, rolls back on an in-flight exception
unless already rolled back, and restores the task-local slot to its
pre-enter value regardless of outcome. -/
theorem outer_transaction_scope (newId : Nat) (sl : Option Nat)
    (exc uc ur : Bool) :
    ∃ t t1, transactionInit none newId true = .ok t ∧
      aenter t sl = (newId, t1, some newId, [TxAction.begin]) ∧
      (aexit { t1 with committed := uc, rolledBack := ur }
        (some newId) exc).2.2.1 = sl ∧
      (aexit { t1 with committed := uc, rolledBack := ur }
        (some newId) exc).1 = !exc ∧
      (aexit { t1 with committed := uc, rolledBack := ur }
        (some newId) exc).2.2.2 =
        (if exc then (if ur then [] else [TxAction.rollback])
         else (if uc || ur then [] else [TxAction.commit])) := by
  refine ⟨_, _, rfl, rfl, ?_, ?_, ?_⟩ <;>
    cases exc <;> cases uc <;> cases ur <;> rfl

/-- Claim C4: constructing a transaction with nesting forbidden while one is
already current raises TransactionError, both directly and through the
engine's transaction() factory (the only call site). -/
theorem nonnested_transaction_fails (slot : Option Nat) (cur newId : Nat)
    (h : slot = some cur) :
    transactionInit slot newId false = .error .transactionError ∧
    engineTransaction slot newId false = .error .transactionError := by
  subst h
  exact ⟨rfl, rfl⟩

/-- Witness for claim C4 with transaction 0 current. -/
theorem nonnested_transaction_fails_witness :
    transactionInit (some 0) 1 false = .error .transactionError :=
  (nonnested_transaction_fails (some 0) 0 1 rfl).1

theorem decDigit_safe : ∀ d : Nat, d < 10 →
    savepointCharSafe (decDigit d) = true := by decide

theorem natDecimalAux_safe (fuel : Nat) : ∀ (n : Nat) (acc : PyStr),
    acc.all savepointCharSafe = true →
    (natDecimalAux fuel n acc).all savepointCharSafe = true := by
  induction fuel with
  | zero =>
    intro n acc h
    simpa [natDecimalAux] using h
  | succ f ih =>
    intro n acc h
    rw [natDecimalAux]
    split
    · next hlt => simp [List.all_cons, h, decDigit_safe n hlt]
    · next hlt =>
      exact ih _ _
        (by simp [List.all_cons, h,
              decDigit_safe (n % 10) (Nat.mod_lt _ (by decide))])

theorem savepointDefaultName_safe (i : Nat) :
    savepointNameSafe (savepointDefaultName i) = true := by
  have h2 : (natDecimal i).all savepointCharSafe = true := by
    unfold natDecimal
    exact natDecimalAux_safe (i + 1) i [] rfl
  have h1 : (['s', 'a', 'v', 'e', 'p', 'o', 'i', 'n', 't', '_'] :
      PyStr).all savepointCharSafe = true := by decide
  unfold savepointNameSafe savepointDefaultName
  rw [List.all_append, h1, h2]
  rfl

/-- Claim C5: a savepoint created without a name gets the default
savepoint_N with N from the transaction's incremented counter; every name is
validated before any SQL is issued, an unsafe name fails with a validation
error and no SQL; rollback_to and release also validate before issuing their
statements. -/
theorem savepoint_naming_and_validation :
    (∀ t : TxnObj, savepoint t none =
      (.ok (savepointDefaultName (t.savepointId + 1),
            { t with savepointId := t.savepointId + 1 }),
       [SqlStmt.createSavepoint (savepointDefaultName (t.savepointId + 1))])) ∧
    (∀ (t : TxnObj) (nm : PyStr), savepointNameSafe nm = false →
      savepoint t (some nm) = (.error .valueError, [])) ∧
    (∀ nm : PyStr, savepointNameSafe nm = false →
      savepointRollbackTo nm = (.error .valueError, []) ∧
      savepointRelease nm = (.error .valueError, [])) ∧
    (∀ nm : PyStr, savepointNameSafe nm = true →
      savepointRollbackTo nm = (.ok (), [SqlStmt.rollbackToSavepoint nm]) ∧
      savepointRelease nm = (.ok (), [SqlStmt.releaseSavepoint nm])) := by
  refine ⟨?_, ?_, ?_, ?_⟩
  · intro t
    simp [savepoint, get_savepoint_id, savepointDefaultName_safe]
  · intro t nm hbad
    have hne : ¬ nm = [] := by
      rintro rfl
      simp [savepointNameSafe] at hbad
    simp [savepoint, hne, hbad]
  · intro nm hbad
    exact ⟨by simp [savepointRollbackTo, hbad], by simp [savepointRelease, hbad]⟩
  · intro nm hgood
    exact ⟨by simp [savepointRollbackTo, hgood], by simp [savepointRelease, hgood]⟩

/-- Witness for claim C5: the spec's injection example name is rejected with
no SQL issued. -/
theorem savepoint_naming_and_validation_witness :
    savepoint ⟨1, none, false, false, 0, none⟩
        (some ("my_savepoint; SELECT * FROM Manager".toList)) =
      (.error .valueError, []) :=
  savepoint_naming_and_validation.2.1 ⟨1, none, false, false, 0, none⟩
    ("my_savepoint; SELECT * FROM Manager".toList) (by decide)

theorem atomicLoop_all_ok (qs : List QueryItem)
    (h : qs.all (fun q => queryItemRecognized q && !queryItemFails q) = true) :
    atomicLoop qs = (qs.map RunEvent.exec, none) := by
  induction qs with
  | nil => rfl
  | cons q rest ih =>
    simp only [List.all_cons, Bool.and_eq_true, Bool.not_eq_true'] at h
    obtain ⟨⟨hrec, hfail⟩, hrest⟩ := h
    simp [atomicLoop, hrec, hfail, ih hrest]

theorem atomicLoop_unrecognized (pre post : List QueryItem)
    (h : pre.all (fun q => queryItemRecognized q && !queryItemFails q) = true) :
    atomicLoop (pre ++ QueryItem.unrecognized :: post) =
      (pre.map RunEvent.exec, some .typeError) := by
  induction pre with
  | nil => rfl
  | cons q rest ih =>
    simp only [List.all_cons, Bool.and_eq_true, Bool.not_eq_true'] at h
    obtain ⟨⟨hrec, hfail⟩, hrest⟩ := h
    simp [atomicLoop, hrec, hfail, ih hrest]

/-- Claim C6: Atomic.run executes the added queries inside one transaction
scope in the order added (begin, each exec in order, commit on success); an
unrecognized item raises TypeError (the scope rolls back and the error
escapes); and the pending list is empty after every run, success or
failure. -/
theorem atomic_run_contract :
    (∀ qs : List QueryItem,
      qs.all (fun q => queryItemRecognized q && !queryItemFails q) = true →
      atomicRun qs =
        (RunEvent.begin :: (qs.map RunEvent.exec ++ [RunEvent.commit]),
         none, [])) ∧
    (∀ pre post : List QueryItem,
      pre.all (fun q => queryItemRecognized q && !queryItemFails q) = true →
      atomicRun (pre ++ QueryItem.unrecognized :: post) =
        (RunEvent.begin :: (pre.map RunEvent.exec ++ [RunEvent.rollback]),
         some .typeError, [])) ∧
    (∀ qs : List QueryItem, (atomicRun qs).2.2 = []) := by
  refine ⟨?_, ?_, ?_⟩
  · intro qs h
    simp [atomicRun, atomicLoop_all_ok qs h]
  · intro pre post h
    simp [atomicRun, atomicLoop_unrecognized pre post h]
  · intro qs
    rcases hl : atomicLoop qs with ⟨evs, err⟩
    cases err <;> simp [atomicRun, hl]

/-- Witness for claim C6: one good query followed by an unrecognized object
runs the good query, rolls back, raises TypeError, and clears the list. -/
theorem atomic_run_contract_witness :
    atomicRun [QueryItem.query false, QueryItem.unrecognized] =
      (RunEvent.begin ::
        ([RunEvent.exec (QueryItem.query false)] ++ [RunEvent.rollback]),
       some .typeError, []) :=
  atomic_run_contract.2.1 [QueryItem.query false] [] (by decide)

end PsqlpyPiccolo
